import Mathlib

/-!
# Verification of the PDFAPI conversion service (`src/main.py`)

Shallow embedding of the Flask HTML→PDF conversion service.  The external
collaborators (BeautifulSoup's `html.parser` parse/serialize, the WeasyPrint
render engine, the thread pool, wall-clock time) are modelled at their
documented interfaces:

* parsed HTML is a tree (`Node` / `NodeList`); BeautifulSoup with
  `html.parser` does not synthesize `html`/`head`/`body` wrappers, and
  serialize∘parse is treated as the identity on trees, so the normalizer
  `generate_pdf_with_styling` is modelled tree→tree;
* the render engine `HTML(string=...).write_pdf()` is an arbitrary function
  `NodeList → Except String (List Nat)` (PDF bytes, each < 256, or the
  message of a raised exception);
* `concurrent.futures` timeouts and elapsed times are explicit parameters.
-/

namespace PDFAPI

/-- An HTML attribute list, e.g. `[("rel", "stylesheet")]`. -/
abbrev Attrs := List (String × String)

mutual

/-- A parsed HTML node as produced by BeautifulSoup: text or an element
with a tag name, attributes and children. -/
inductive Node : Type where
  | text : String → Node
  | elem : String → Attrs → NodeList → Node

/-- A sequence of sibling nodes (the soup itself is a `NodeList`). -/
inductive NodeList : Type where
  | nil : NodeList
  | cons : Node → NodeList → NodeList

end

mutual

/-- Number of nodes satisfying `p`, at any depth, in a node's subtree. -/
def countN (p : Node → Bool) : Node → Nat
  | .text s => if p (.text s) then 1 else 0
  | .elem name a cs => (if p (.elem name a cs) then 1 else 0) + countL p cs

/-- Number of nodes satisfying `p`, at any depth, in a node list. -/
def countL (p : Node → Bool) : NodeList → Nat
  | .nil => 0
  | .cons n ns => countN p n + countL p ns

end

mutual

/-- `soup.find(...)` viewed as a Boolean: does any node in the subtree
satisfy `p`? -/
def findN (p : Node → Bool) : Node → Bool
  | .text s => p (.text s)
  | .elem name a cs => p (.elem name a cs) || findL p cs

/-- Boolean existence of a match in a node list. -/
def findL (p : Node → Bool) : NodeList → Bool
  | .nil => false
  | .cons n ns => findN p n || findL p ns

end

/-- Matches an element with the given tag name (BeautifulSoup
`soup.find('style')`, `soup.find('head')`, ...). -/
def isTag (tag : String) : Node → Bool
  | .text _ => false
  | .elem name _ _ => name == tag

/-- Matches `soup.find('link', rel='stylesheet')`. -/
def isStylesheetLink : Node → Bool
  | .text _ => false
  | .elem name attrs _ => name == "link" && (attrs.lookup "rel" == some "stylesheet")

/-- Append a node at the end of a sibling list (`tag.append(child)`). -/
def snocL : NodeList → Node → NodeList
  | .nil, st => .cons st .nil
  | .cons n ns, st => .cons n (snocL ns st)

mutual

/-- `soup.head.append(style_tag)`: append `st` as last child of the first
`head` element in document (pre)order.  Identity when no `head` exists. -/
def appendFirstHeadN (st : Node) : Node → Node
  | .text s => .text s
  | .elem name a cs =>
      if name == "head" then .elem name a (snocL cs st)
      else .elem name a (appendFirstHeadL st cs)

/-- List version of `appendFirstHeadN`: modify the first sibling whose
subtree contains a `head` element. -/
def appendFirstHeadL (st : Node) : NodeList → NodeList
  | .nil => .nil
  | .cons n ns =>
      if findN (isTag "head") n then .cons (appendFirstHeadN st n) ns
      else .cons n (appendFirstHeadL st ns)

end

/-- The default CSS injected by `generate_pdf_with_styling` (the
`style_tag.string` literal of `src/main.py`; braces, quotes and
apostrophes are escaped). -/
def defaultStyleCss : String :=
  "\n            @page \x7b\n                margin: 1in;\n                @bottom-center \x7b\n                    content: \x22Page \x22 counter(page) \x22 of \x22 counter(pages);\n                    font-size: 9pt;\n                    color: #666;\n                \x7d\n            \x7d\n            body \x7b \n                font-family: \x27Helvetica\x27, \x27Arial\x27, sans-serif;\n                line-height: 1.6; \n                color: #333;\n                font-size: 11pt;\n            \x7d\n            h1 \x7b \n                color: #2c3e50; \n                border-bottom: 2px solid #3498db;\n                padding-bottom: 8px;\n                font-size: 18pt;\n            \x7d\n            h2 \x7b \n                color: #34495e; \n                margin-top: 24pt;\n                font-size: 14pt;\n            \x7d\n            h3 \x7b \n                color: #7f8c8d; \n                font-size: 12pt;\n            \x7d\n            p \x7b \n                margin-bottom: 8pt; \n                text-align: justify;\n            \x7d\n            table \x7b \n                border-collapse: collapse; \n                width: 100%; \n                margin: 12pt 0;\n            \x7d\n            th, td \x7b \n                border: 1px solid #ddd; \n                padding: 8pt; \n                text-align: left; \n                font-size: 10pt;\n            \x7d\n            th \x7b \n                background-color: #f8f9fa;\n                font-weight: bold;\n            \x7d\n            tr:nth-child(even) \x7b background-color: #f8f9fa; \x7d\n            ul, ol \x7b margin: 8pt 0; \x7d\n            li \x7b margin-bottom: 4pt; \x7d\n            .page-break \x7b page-break-before: always; \x7d\n            img \x7b max-width: 100%; height: auto; \x7d\n            blockquote \x7b\n                border-left: 4px solid #3498db;\n                margin: 12pt 0;\n                padding-left: 12pt;\n                font-style: italic;\n            \x7d\n        "

/-- The `<style>` element built by `soup.new_tag('style')` with the default
CSS as its string content. -/
def styleTag : Node := .elem "style" [] (.cons (.text defaultStyleCss) .nil)

/-- `generate_pdf_with_styling` of `src/main.py`: if the soup has no
`style` element and no `link rel=stylesheet`, inject the default style tag
into the first `head` element, synthesizing a `head` at position 0 when
none exists; otherwise return the input unchanged. -/
def generate_pdf_with_styling (soup : NodeList) : NodeList :=
  if !findL (isTag "style") soup && !findL isStylesheetLink soup then
    if findL (isTag "head") soup then appendFirstHeadL styleTag soup
    else .cons (.elem "head" [] (.cons styleTag .nil)) soup
  else soup

mutual

theorem findN_iff (p : Node → Bool) : ∀ n : Node, findN p n = true ↔ 0 < countN p n
  | .text s => by cases h : p (.text s) <;> simp [findN, countN, h]
  | .elem name a cs => by
      cases h : p (.elem name a cs)
      · simp [findN, countN, h, findL_iff p cs]
      · simp [findN, countN, h]

theorem findL_iff (p : Node → Bool) : ∀ l : NodeList, findL p l = true ↔ 0 < countL p l
  | .nil => by simp [findL, countL]
  | .cons n ns => by
      simp [findL, countL, findN_iff p n, findL_iff p ns]

end

theorem countL_snoc (p : Node → Bool) (st : Node) :
    ∀ l : NodeList, countL p (snocL l st) = countL p l + countN p st
  | .nil => by simp [snocL, countL]
  | .cons n ns => by
      simp [snocL, countL, countL_snoc p st ns]
      omega

/-- Predicates that only inspect an element's tag name and attributes,
never its children (all the filters passed to `find` do). -/
def ShallowPred (p : Node → Bool) : Prop :=
  ∀ name a cs cs', p (.elem name a cs) = p (.elem name a cs')

theorem isTag_shallow (tag : String) : ShallowPred (isTag tag) := by
  intro name a cs cs'; simp [isTag]

theorem isStylesheetLink_shallow : ShallowPred isStylesheetLink := by
  intro name a cs cs'; simp [isStylesheetLink]

mutual

theorem countN_appendFirstHead (p : Node → Bool) (hp : ShallowPred p) (st : Node) :
    ∀ n : Node, countN p (appendFirstHeadN st n) =
      countN p n + (if findN (isTag "head") n then countN p st else 0)
  | .text s => by simp [appendFirstHeadN, findN, isTag, countN]
  | .elem name a cs => by
      by_cases h : name == "head"
      · have hfind : findN (isTag "head") (.elem name a cs) = true := by
          simp [findN, isTag, h]
        simp only [appendFirstHeadN, h, if_pos, countN, countL_snoc, hfind, if_true,
          hp name a (snocL cs st) cs]
        omega
      · have hh : findN (isTag "head") (.elem name a cs) = findL (isTag "head") cs := by
          simp [findN, isTag, h]
        simp only [appendFirstHeadN, h, if_neg, Bool.false_eq_true, not_false_iff, countN, hh,
          countL_appendFirstHead p hp st cs, hp name a (appendFirstHeadL st cs) cs]
        omega

theorem countL_appendFirstHead (p : Node → Bool) (hp : ShallowPred p) (st : Node) :
    ∀ l : NodeList, countL p (appendFirstHeadL st l) =
      countL p l + (if findL (isTag "head") l then countN p st else 0)
  | .nil => by simp [appendFirstHeadL, findL, countL]
  | .cons n ns => by
      by_cases h : findN (isTag "head") n = true
      · simp [appendFirstHeadL, h, countL, findL, countN_appendFirstHead p hp st n]
        omega
      · simp [appendFirstHeadL, h, countL, findL, countL_appendFirstHead p hp st ns]
        omega

end

mutual

/-- Number of `style` elements in a node's subtree that sit inside a `head`
element; `inHead` records whether an ancestor is a `head`. -/
def sihN (inHead : Bool) : Node → Nat
  | .text _ => 0
  | .elem name _ cs =>
      (if name == "style" && inHead then 1 else 0) + sihL (inHead || name == "head") cs

/-- List version of `sihN`. -/
def sihL (inHead : Bool) : NodeList → Nat
  | .nil => 0
  | .cons n ns => sihN inHead n + sihL inHead ns

end

theorem sihL_snoc (b : Bool) (st : Node) :
    ∀ l : NodeList, sihL b (snocL l st) = sihL b l + sihN b st
  | .nil => by simp [snocL, sihL]
  | .cons n ns => by
      simp [snocL, sihL, sihL_snoc b st ns]
      omega

theorem sihN_styleTag : sihN true styleTag = 1 := by
  simp [styleTag, sihN, sihL]

mutual

theorem sihN_appendFirstHead (b : Bool) :
    ∀ n : Node, sihN b (appendFirstHeadN styleTag n) =
      sihN b n + (if findN (isTag "head") n then 1 else 0)
  | .text s => by simp [appendFirstHeadN, findN, isTag, sihN]
  | .elem name a cs => by
      by_cases h : name = "head"
      · subst h
        simp [appendFirstHeadN, sihN, sihL_snoc, styleTag, sihL, findN, isTag]
      · have hname : (name == "head") = false := by simp [h]
        have hIH := sihL_appendFirstHead (b || (name == "head")) cs
        simp only [hname, Bool.or_false] at hIH
        simp only [appendFirstHeadN, hname, Bool.false_eq_true, if_false, sihN, findN, isTag,
          Bool.false_or, Bool.or_false, hIH]
        omega

theorem sihL_appendFirstHead (b : Bool) :
    ∀ l : NodeList, sihL b (appendFirstHeadL styleTag l) =
      sihL b l + (if findL (isTag "head") l then 1 else 0)
  | .nil => by simp [appendFirstHeadL, findL, sihL]
  | .cons n ns => by
      by_cases h : findN (isTag "head") n = true
      · simp [appendFirstHeadL, h, sihL, findL, sihN_appendFirstHead b n]
        omega
      · simp [appendFirstHeadL, h, sihL, findL, sihL_appendFirstHead b ns]
        omega

end

mutual

theorem sihN_le_countStyle (b : Bool) :
    ∀ n : Node, sihN b n ≤ countN (isTag "style") n
  | .text s => by simp [sihN, countN]
  | .elem name a cs => by
      have hcs := sihL_le_countStyle (b || (name == "head")) cs
      have hb : sihL (b || (name == "head")) cs ≤ countL (isTag "style") cs := hcs
      by_cases h : name = "head"
      · subst h
        simp only [Bool.or_true, show (("head" : String) == "head") = true from rfl] at hb
        simp only [sihN, countN, isTag]
        simp only [show (("head" : String) == "style") = false from rfl, Bool.false_and,
          Bool.false_eq_true, if_false, show (("head" : String) == "head") = true from rfl,
          Bool.or_true]
        omega
      · have hname : (name == "head") = false := by simp [h]
        simp only [hname, Bool.or_false] at hb
        simp only [sihN, countN, isTag, hname, Bool.or_false]
        cases b <;> by_cases hs : (name == "style") = true <;>
          simp only [hs, Bool.true_and, Bool.false_and, Bool.and_true, Bool.and_false,
            if_true, Bool.false_eq_true, if_false] <;> omega

theorem sihL_le_countStyle (b : Bool) :
    ∀ l : NodeList, sihL b l ≤ countL (isTag "style") l
  | .nil => by simp [sihL, countL]
  | .cons n ns => by
      have h1 := sihN_le_countStyle b n
      have h2 := sihL_le_countStyle b ns
      simp only [sihL, countL]
      omega

end

theorem countL_eq_zero_of_findL_false (p : Node → Bool) (l : NodeList)
    (h : findL p l = false) : countL p l = 0 := by
  by_contra hc
  have ht : findL p l = true := (findL_iff p l).mpr (Nat.pos_of_ne_zero hc)
  rw [h] at ht
  exact Bool.false_ne_true ht

theorem findL_true_of_countL_pos (p : Node → Bool) (l : NodeList)
    (h : 0 < countL p l) : findL p l = true :=
  (findL_iff p l).mpr h

theorem countN_styleTag_style : countN (isTag "style") styleTag = 1 := by
  simp [styleTag, countN, countL, isTag]

theorem countN_styleTag_of_ne (t : String) (h : t ≠ "style") :
    countN (isTag t) styleTag = 0 := by
  simp [styleTag, countN, countL, isTag, Ne.symm h]

/-- The `head` element synthesized when the soup has no `head`. -/
def synthHead : Node := .elem "head" [] (.cons styleTag .nil)

theorem countN_synthHead_style : countN (isTag "style") synthHead = 1 := by
  simp [synthHead, styleTag, countN, countL, isTag]

theorem countN_synthHead_head : countN (isTag "head") synthHead = 1 := by
  simp [synthHead, styleTag, countN, countL, isTag]

theorem countN_synthHead_of_ne (t : String) (hs : t ≠ "style") (hh : t ≠ "head") :
    countN (isTag t) synthHead = 0 := by
  simp [synthHead, styleTag, countN, countL, isTag, Ne.symm hh, Ne.symm hs]

theorem sihN_synthHead : sihN false synthHead = 1 := by
  simp [synthHead, styleTag, sihN, sihL]

/-- Unfolding of `generate_pdf_with_styling` when styling is absent. -/
theorem generate_eq_of_no_style (soup : NodeList)
    (hs : findL (isTag "style") soup = false) (hl : findL isStylesheetLink soup = false) :
    generate_pdf_with_styling soup =
      (if findL (isTag "head") soup then appendFirstHeadL styleTag soup
       else .cons synthHead soup) := by
  simp [generate_pdf_with_styling, hs, hl, synthHead]

/-- Unfolding of `generate_pdf_with_styling` when styling is present. -/
theorem generate_eq_of_style (soup : NodeList)
    (h : findL (isTag "style") soup = true ∨ findL isStylesheetLink soup = true) :
    generate_pdf_with_styling soup = soup := by
  rcases h with h | h <;> simp [generate_pdf_with_styling, h]

/-- Core styling-injection facts shared by several results: when neither a
style block nor a stylesheet link is present, the normalized soup has exactly
one style element, that style element is inside a head element, and a head
element exists. -/
theorem generate_inject_facts (soup : NodeList)
    (hs : findL (isTag "style") soup = false) (hl : findL isStylesheetLink soup = false) :
    countL (isTag "style") (generate_pdf_with_styling soup) = 1 ∧
    sihL false (generate_pdf_with_styling soup) = 1 ∧
    findL (isTag "head") (generate_pdf_with_styling soup) = true := by
  have hc0 : countL (isTag "style") soup = 0 := countL_eq_zero_of_findL_false _ _ hs
  have hsih0 : sihL false soup = 0 := by
    have := sihL_le_countStyle false soup
    omega
  rw [generate_eq_of_no_style soup hs hl]
  by_cases hh : findL (isTag "head") soup = true
  · simp only [hh, if_true]
    refine ⟨?_, ?_, ?_⟩
    · rw [countL_appendFirstHead _ (isTag_shallow "style") styleTag soup, hh]
      simp [hc0, countN_styleTag_style]
    · rw [sihL_appendFirstHead false soup, hh]
      simp [hsih0]
    · apply findL_true_of_countL_pos
      rw [countL_appendFirstHead _ (isTag_shallow "head") styleTag soup, hh]
      have := (findL_iff (isTag "head") soup).mp hh
      omega
  · have hh' : findL (isTag "head") soup = false := by simpa using hh
    simp only [hh', Bool.false_eq_true, if_false]
    refine ⟨?_, ?_, ?_⟩
    · simp [countL, countN_synthHead_style, hc0]
    · simp [sihL, sihN_synthHead, hsih0]
    · simp [findL, findN, synthHead, isTag]

/-- **C4.** For every non-empty input containing neither a style block nor a
stylesheet link, normalization injects exactly one default style block, the
injected block sits inside a head element, and a head element exists in the
output (synthesized when absent from the input); when a style block or a
stylesheet link is already present, nothing is injected and the soup is
returned unchanged. -/
theorem claim_C4_default_style_injection (soup : NodeList) (_hne : soup ≠ NodeList.nil) :
    (findL (isTag "style") soup = false → findL isStylesheetLink soup = false →
      countL (isTag "style") (generate_pdf_with_styling soup) = 1 ∧
      sihL false (generate_pdf_with_styling soup) = 1 ∧
      findL (isTag "head") (generate_pdf_with_styling soup) = true) ∧
    (findL (isTag "style") soup = true ∨ findL isStylesheetLink soup = true →
      generate_pdf_with_styling soup = soup) :=
  ⟨fun hs hl => generate_inject_facts soup hs hl,
   fun h => generate_eq_of_style soup h⟩

theorem claim_C4_witness :
    countL (isTag "style")
      (generate_pdf_with_styling
        (.cons (.elem "p" [] (.cons (.text "x") .nil)) .nil)) = 1 ∧
    sihL false
      (generate_pdf_with_styling
        (.cons (.elem "p" [] (.cons (.text "x") .nil)) .nil)) = 1 ∧
    findL (isTag "head")
      (generate_pdf_with_styling
        (.cons (.elem "p" [] (.cons (.text "x") .nil)) .nil)) = true :=
  (claim_C4_default_style_injection
      (.cons (.elem "p" [] (.cons (.text "x") .nil)) .nil)
      (by intro h; cases h)).1 (by decide) (by decide)

/-- **C6.** Styling injection is idempotent: normalizing an already-normalized
soup changes nothing, so in particular no second style block is ever
injected. -/
theorem claim_C6_styling_idempotent (soup : NodeList) :
    generate_pdf_with_styling (generate_pdf_with_styling soup) =
      generate_pdf_with_styling soup := by
  by_cases hs : findL (isTag "style") soup = true
  · rw [generate_eq_of_style soup (Or.inl hs)]
    exact generate_eq_of_style soup (Or.inl hs)
  · by_cases hl : findL isStylesheetLink soup = true
    · rw [generate_eq_of_style soup (Or.inr hl)]
      exact generate_eq_of_style soup (Or.inr hl)
    · have hs' : findL (isTag "style") soup = false := by simpa using hs
      have hl' : findL isStylesheetLink soup = false := by simpa using hl
      have h1 : countL (isTag "style") (generate_pdf_with_styling soup) = 1 :=
        (generate_inject_facts soup hs' hl').1
      exact generate_eq_of_style _ (Or.inl (findL_true_of_countL_pos _ _ (by omega)))

theorem appendFirstHeadL_ne_nil (st : Node) (soup : NodeList) (hne : soup ≠ NodeList.nil) :
    appendFirstHeadL st soup ≠ NodeList.nil := by
  cases soup with
  | nil => exact absurd rfl hne
  | cons n ns =>
      simp only [appendFirstHeadL]
      split <;> exact fun h => NodeList.noConfusion h

/-- **C5 (counterexample).** The fragment `<h1>Hi</h1>` does not start with a
doctype or root tag, yet normalization does not wrap it as a body fragment:
the output contains no `body` element and no `html` element, refuting "the
output is always a single well-formed document string with head and body". -/
theorem claim_C5_counterexample :
    countL (isTag "body")
      (generate_pdf_with_styling
        (.cons (.elem "h1" [] (.cons (.text "Hi") .nil)) .nil)) = 0 ∧
    countL (isTag "html")
      (generate_pdf_with_styling
        (.cons (.elem "h1" [] (.cons (.text "Hi") .nil)) .nil)) = 0 := by
  constructor <;> rfl

/-- **C5 (amended).** Normalization performs no document-completeness decision
and never wraps the input: no `body` or `html` element is ever added or
removed, and the output is non-empty whenever the input is non-empty (the
only change is the possible injection of a style block / synthesized head). -/
theorem claim_C5_no_wrapping (soup : NodeList) (hne : soup ≠ NodeList.nil) :
    generate_pdf_with_styling soup ≠ NodeList.nil ∧
    countL (isTag "body") (generate_pdf_with_styling soup) = countL (isTag "body") soup ∧
    countL (isTag "html") (generate_pdf_with_styling soup) = countL (isTag "html") soup := by
  by_cases hs : findL (isTag "style") soup = true
  · rw [generate_eq_of_style soup (Or.inl hs)]
    exact ⟨hne, rfl, rfl⟩
  · by_cases hl : findL isStylesheetLink soup = true
    · rw [generate_eq_of_style soup (Or.inr hl)]
      exact ⟨hne, rfl, rfl⟩
    · have hs' : findL (isTag "style") soup = false := by simpa using hs
      have hl' : findL isStylesheetLink soup = false := by simpa using hl
      rw [generate_eq_of_no_style soup hs' hl']
      by_cases hh : findL (isTag "head") soup = true
      · simp only [hh, if_true]
        refine ⟨appendFirstHeadL_ne_nil _ _ hne, ?_, ?_⟩
        · rw [countL_appendFirstHead _ (isTag_shallow "body") styleTag soup, hh]
          simp [countN_styleTag_of_ne "body" (by decide)]
        · rw [countL_appendFirstHead _ (isTag_shallow "html") styleTag soup, hh]
          simp [countN_styleTag_of_ne "html" (by decide)]
      · have hh' : findL (isTag "head") soup = false := by simpa using hh
        simp only [hh', Bool.false_eq_true, if_false]
        refine ⟨fun h => NodeList.noConfusion h, ?_, ?_⟩
        · simp [countL, countN_synthHead_of_ne "body" (by decide) (by decide)]
        · simp [countL, countN_synthHead_of_ne "html" (by decide) (by decide)]

theorem claim_C5_no_wrapping_witness :
    generate_pdf_with_styling
        (.cons (.elem "h1" [] (.cons (.text "Hi") .nil)) .nil) ≠ NodeList.nil ∧
    countL (isTag "body")
      (generate_pdf_with_styling
        (.cons (.elem "h1" [] (.cons (.text "Hi") .nil)) .nil)) =
      countL (isTag "body") (.cons (.elem "h1" [] (.cons (.text "Hi") .nil)) .nil) ∧
    countL (isTag "html")
      (generate_pdf_with_styling
        (.cons (.elem "h1" [] (.cons (.text "Hi") .nil)) .nil)) =
      countL (isTag "html") (.cons (.elem "h1" [] (.cons (.text "Hi") .nil)) .nil) :=
  claim_C5_no_wrapping
    (.cons (.elem "h1" [] (.cons (.text "Hi") .nil)) .nil)
    (by intro h; cases h)

/-! ## Base64 (RFC 4648, as `base64.b64encode` used on the success path) -/

/-- The standard base64 alphabet. -/
def b64chars : List Char :=
  "ABCDEFGHIJKLMNOPQRSTUVWXYZabcdefghijklmnopqrstuvwxyz0123456789+/".toList

/-- Sextet value → base64 character. -/
def encChar (n : Nat) : Char := b64chars.getD n 'A'

/-- Base64 character → sextet value. -/
def decChar (c : Char) : Option Nat := b64chars.findIdx? (fun x => x == c)

theorem decChar_encChar : ∀ n : Nat, n < 64 → decChar (encChar n) = some n := by decide

theorem encChar_ne_eq : ∀ n : Nat, n < 64 → encChar n ≠ '=' := by decide

/-- `base64.b64encode` on a byte list (each byte < 256): 3 bytes → 4 chars,
with `=` padding. -/
def b64encode : List Nat → List Char
  | [] => []
  | [a] => [encChar (a / 4), encChar (a % 4 * 16), '=', '=']
  | [a, b] => [encChar (a / 4), encChar (a % 4 * 16 + b / 16), encChar (b % 16 * 4), '=']
  | a :: b :: c :: rest =>
      encChar (a / 4) :: encChar (a % 4 * 16 + b / 16) ::
        encChar (b % 16 * 4 + c / 64) :: encChar (c % 64) :: b64encode rest

/-- Base64 decoding (the inverse direction, used to state the round-trip). -/
def b64decode : List Char → Option (List Nat)
  | [] => some []
  | c1 :: c2 :: c3 :: c4 :: rest =>
      match decChar c1, decChar c2 with
      | some a, some b =>
          if c3 = '=' then
            if c4 = '=' ∧ rest = [] ∧ b % 16 = 0 then some [a * 4 + b / 16] else none
          else
            match decChar c3 with
            | some c =>
                if c4 = '=' then
                  if rest = [] ∧ c % 4 = 0 then
                    some [a * 4 + b / 16, b % 16 * 16 + c / 4]
                  else none
                else
                  match decChar c4, b64decode rest with
                  | some d, some tl =>
                      some ((a * 4 + b / 16) :: (b % 16 * 16 + c / 4) :: (c % 4 * 64 + d) :: tl)
                  | _, _ => none
            | none => none
      | _, _ => none
  | _ => none

theorem b64_roundtrip :
    ∀ bs : List Nat, (∀ x ∈ bs, x < 256) → b64decode (b64encode bs) = some bs := by
  intro bs
  induction bs using b64encode.induct with
  | case1 => intro _; simp [b64encode, b64decode]
  | case2 a =>
      intro hb
      have ha : a < 256 := hb a (by simp)
      have h1 : a / 4 < 64 := by omega
      have h2 : a % 4 * 16 < 64 := by omega
      simp [b64encode, b64decode, decChar_encChar _ h1, decChar_encChar _ h2]
      omega
  | case3 a b =>
      intro hb
      have ha : a < 256 := hb a (by simp)
      have hbb : b < 256 := hb b (by simp)
      have h1 : a / 4 < 64 := by omega
      have h2 : a % 4 * 16 + b / 16 < 64 := by omega
      have h3 : b % 16 * 4 < 64 := by omega
      simp [b64encode, b64decode, decChar_encChar _ h1, decChar_encChar _ h2,
        decChar_encChar _ h3, encChar_ne_eq _ h3]
      omega
  | case4 a b c rest ih =>
      intro hb
      have ha : a < 256 := hb a (by simp)
      have hbb : b < 256 := hb b (by simp)
      have hc : c < 256 := hb c (by simp)
      have h1 : a / 4 < 64 := by omega
      have h2 : a % 4 * 16 + b / 16 < 64 := by omega
      have h3 : b % 16 * 4 + c / 64 < 64 := by omega
      have h4 : c % 64 < 64 := by omega
      have htl : b64decode (b64encode rest) = some rest :=
        ih (fun x hx => hb x (by simp [hx]))
      simp [b64encode, b64decode, decChar_encChar _ h1, decChar_encChar _ h2,
        decChar_encChar _ h3, decChar_encChar _ h4, encChar_ne_eq _ h3,
        encChar_ne_eq _ h4, htl]
      omega

/-! ## The worker function `process_pdf` and the `/convert` handler -/

/-- The JSON result dictionary built by `process_pdf` /returned by `convert`.
Fields absent from the Python dict are `none`.  Times are modelled as the
already-measured values (naturals standing for the rounded millisecond
floats). -/
structure ConvertResponse where
  success : Bool
  pdf_base64 : Option (List Char) := none
  size_bytes : Option Nat := none
  error : Option String := none
  processing_time_ms : Option Nat := none
  request_id : String
  api_response_time_ms : Option Nat := none

/-- `process_pdf(html_content, request_id)` of `src/main.py`.  The WeasyPrint
call `HTML(string=styled_html).write_pdf()` is the opaque `render` function:
`.ok bytes` for a produced PDF, `.error msg` for a raised exception (whose
`str(e)` is `msg`).  `tProc` is the measured elapsed time.  The whole body is
a `try/except`, so every outcome is a dictionary, never an exception. -/
def process_pdf (render : NodeList → Except String (List Nat)) (html_content : NodeList)
    (request_id : String) (tProc : Nat) : ConvertResponse :=
  let styled_html := generate_pdf_with_styling html_content
  match render styled_html with
  | .ok pdf_bytes =>
      { success := true
        pdf_base64 := some (b64encode pdf_bytes)
        size_bytes := some pdf_bytes.length
        processing_time_ms := some tProc
        request_id := request_id }
  | .error e =>
      { success := false
        error := some e
        processing_time_ms := some tProc
        request_id := request_id }

/-- The JSON request body as seen by `request.get_json()`: `none` when no
JSON body could be obtained, otherwise an association list (values are the
strings relevant to the claims). -/
abbrev JsonBody := Option (List (String × String))

/-- Result of `future.result(timeout=30)`: either `process_pdf`'s return
value arrives in time, or an exception (timeout, ...) with message `excMsg`
escapes into the handler's `except` block. -/
inductive FutureBehavior where
  | completes : FutureBehavior
  | raises : String → FutureBehavior

/-- The `POST /convert` handler of `src/main.py` (non-OPTIONS path).
Returns the response, the HTTP status code, and whether the job was
submitted to the executor (i.e. whether normalizer/engine run at all).
`jsonify(result)` with no explicit status returns HTTP 200. -/
def convert (request_id : String) (body : JsonBody)
    (parse : String → NodeList) (render : NodeList → Except String (List Nat))
    (fut : FutureBehavior) (tProc tApi : Nat) :
    ConvertResponse × Nat × Bool :=
  match body with
  | none =>
      ({ success := false, error := some "No JSON data provided",
         request_id := request_id }, 400, false)
  | some data =>
      if data = [] then
        ({ success := false, error := some "No JSON data provided",
           request_id := request_id }, 400, false)
      else
        let html_content := (data.lookup "html").getD ""
        if html_content = "" then
          ({ success := false, error := some "No HTML content provided",
             request_id := request_id }, 400, false)
        else
          match fut with
          | .completes =>
              let result := process_pdf render (parse html_content) request_id tProc
              ({ result with api_response_time_ms := some tApi }, 200, true)
          | .raises excMsg =>
              ({ success := false, error := some ("Server error: " ++ excMsg),
                 request_id := request_id,
                 api_response_time_ms := some tApi }, 500, true)

/-! ## Startup warm-up, `/health`, and the executor -/

/-- The module-level warm-up of `src/main.py` (lines 16–24): the engine
self-test runs inside `try`/`except Exception`; a failure is only logged and
module evaluation — hence startup, route registration and the executor —
continues either way.  Returns whether the service starts. -/
def warmupThenStart (selfTest : Except String Unit) : Bool :=
  match selfTest with
  | .ok _ => true
  | .error _ => true

/-- The payload of `GET /health` (timestamp omitted: it is wall-clock). -/
structure HealthResponse where
  status : String
  service : String
  version : String

/-- `GET /health` of `src/main.py`: a static payload.  The warm-up outcome is
not stored anywhere in the program, so the handler cannot and does not
consult it; the parameter records that independence. -/
def health (_selfTest : Except String Unit) : HealthResponse :=
  { status := "healthy", service := "saas-pdf-api", version := "1.0.0" }

/-- State of `executor = ThreadPoolExecutor(max_workers=4)`: number of busy
workers and length of the pool's work queue. -/
structure PoolState where
  active : Nat
  queueLen : Nat

/-- `max_workers=4` from `src/main.py` line 27. -/
def max_workers : Nat := 4

/-- What happens to a submitted job on admission. -/
inductive SubmitOutcome where
  | started
  | queued

/-- `executor.submit(...)` admission, per the documented
`concurrent.futures.ThreadPoolExecutor` semantics: a job starts immediately
when a worker is free and is otherwise placed on the pool's *unbounded* work
queue; submission never fails for capacity reasons. -/
def poolSubmit (s : PoolState) : SubmitOutcome × PoolState :=
  if s.active < max_workers then
    (.started, { active := s.active + 1, queueLen := s.queueLen })
  else
    (.queued, { active := s.active, queueLen := s.queueLen + 1 })

/-- Parse stub used to instantiate theorems at concrete inputs. -/
def fakeParse (s : String) : NodeList := .cons (.text s) .nil

/-- Render stub returning the fixed bytes `b"PDFDATA"`. -/
def fakeRenderOk : NodeList → Except String (List Nat) :=
  fun _ => .ok [80, 68, 70, 68, 65, 84, 65]

/-- Render stub that raises with message `"boom"`. -/
def fakeRenderErr : NodeList → Except String (List Nat) :=
  fun _ => .error "boom"

/-! ## Claims about `/convert`, `process_pdf`, health and the executor -/

/-- **C1 (counterexample).** A whitespace-only `html` field (a single space)
is *not* rejected: the string `" "` is truthy in Python, so validation
passes, the job is submitted (normalizer and engine run), and the request is
answered with status 200, not 400. -/
theorem claim_C1_counterexample :
    (convert "req-1" (some [("html", " ")]) fakeParse fakeRenderOk
        .completes 3 5).2.1 = 200 ∧
    (convert "req-1" (some [("html", " ")]) fakeParse fakeRenderOk
        .completes 3 5).2.2 = true :=
  ⟨rfl, rfl⟩

/-- **C1 (amended).** For a missing JSON body, an empty JSON object, or an
`html` field that is absent or the empty string, `/convert` answers
success=false with status 400 and never submits the job (normalizer,
executor and engine are not invoked).  Whitespace-only `html` is *not*
rejected (see the counterexample): the code tests Python falsiness, not
trimmed emptiness. -/
theorem claim_C1_validation_short_circuit (request_id : String) (body : JsonBody)
    (parse : String → NodeList) (render : NodeList → Except String (List Nat))
    (fut : FutureBehavior) (tProc tApi : Nat)
    (h : body = none ∨ body = some [] ∨
      ∃ d, body = some d ∧ d ≠ [] ∧ (d.lookup "html").getD "" = "") :
    (convert request_id body parse render fut tProc tApi).1.success = false ∧
    (convert request_id body parse render fut tProc tApi).2.1 = 400 ∧
    (convert request_id body parse render fut tProc tApi).2.2 = false := by
  rcases h with rfl | rfl | ⟨d, rfl, hd, hh⟩
  · simp [convert]
  · simp [convert]
  · simp [convert, hd, hh]

theorem claim_C1_witness :
    (convert "req-1" (some [("html", "")]) fakeParse fakeRenderOk
        .completes 3 5).1.success = false ∧
    (convert "req-1" (some [("html", "")]) fakeParse fakeRenderOk
        .completes 3 5).2.1 = 400 ∧
    (convert "req-1" (some [("html", "")]) fakeParse fakeRenderOk
        .completes 3 5).2.2 = false :=
  claim_C1_validation_short_circuit "req-1" (some [("html", "")]) fakeParse fakeRenderOk
    .completes 3 5
    (Or.inr (Or.inr ⟨[("html", "")], rfl, by decide, by decide⟩))

/-- **C2 (counterexample).** When the engine raises (here with message
`"boom"`) on valid input, the failure dictionary built by `process_pdf`
flows back through the normal path and `jsonify(result)` is returned with
the *default* status 200 — not 500 as claimed (no explicit status code is
attached on that branch). -/
theorem claim_C2_counterexample :
    (convert "req-1" (some [("html", "<h1>x</h1>")]) fakeParse fakeRenderErr
        .completes 3 5).2.1 = 200 ∧
    (convert "req-1" (some [("html", "<h1>x</h1>")]) fakeParse fakeRenderErr
        .completes 3 5).1.success = false ∧
    (convert "req-1" (some [("html", "<h1>x</h1>")]) fakeParse fakeRenderErr
        .completes 3 5).1.error = some "boom" :=
  ⟨rfl, rfl, rfl⟩

/-- **C2 (amended).** When the render engine raises during processing of a
valid request, the response has success=false and its error field is exactly
the engine's reported message — but the HTTP status is 200 (the default of
`jsonify`), not 500; 500 is produced only by exceptions that escape into the
handler's `except` block (e.g. the 30 s future timeout). -/
theorem claim_C2_engine_failure (request_id : String) (d : List (String × String))
    (parse : String → NodeList) (render : NodeList → Except String (List Nat))
    (msg : String) (tProc tApi : Nat)
    (hd : d ≠ []) (hh : (d.lookup "html").getD "" ≠ "")
    (hrender : render (generate_pdf_with_styling (parse ((d.lookup "html").getD ""))) =
      .error msg) :
    (convert request_id (some d) parse render .completes tProc tApi).1.success = false ∧
    (convert request_id (some d) parse render .completes tProc tApi).1.error = some msg ∧
    (convert request_id (some d) parse render .completes tProc tApi).2.1 = 200 := by
  simp [convert, hd, hh, process_pdf, hrender]

theorem claim_C2_witness :
    (convert "req-1" (some [("html", "<h1>x</h1>")]) fakeParse fakeRenderErr
        .completes 3 5).1.success = false ∧
    (convert "req-1" (some [("html", "<h1>x</h1>")]) fakeParse fakeRenderErr
        .completes 3 5).1.error = some "boom" ∧
    (convert "req-1" (some [("html", "<h1>x</h1>")]) fakeParse fakeRenderErr
        .completes 3 5).2.1 = 200 :=
  claim_C2_engine_failure "req-1" [("html", "<h1>x</h1>")] fakeParse fakeRenderErr
    "boom" 3 5 (by decide) (by decide) rfl

/-- **C3.** On the success path the response's `pdf_base64` is the base64
encoding of exactly the bytes the engine returned — decoding it gives back
those bytes — and `size_bytes` is their length; on the failure path no
base64 encoding happens (`pdf_base64` is absent). -/
theorem claim_C3_base64_roundtrip (render : NodeList → Except String (List Nat))
    (soup : NodeList) (request_id : String) (tProc : Nat) :
    (∀ bytes, render (generate_pdf_with_styling soup) = .ok bytes →
      (∀ x ∈ bytes, x < 256) →
      (process_pdf render soup request_id tProc).success = true ∧
      (process_pdf render soup request_id tProc).pdf_base64 = some (b64encode bytes) ∧
      b64decode (b64encode bytes) = some bytes ∧
      (process_pdf render soup request_id tProc).size_bytes = some bytes.length) ∧
    (∀ msg, render (generate_pdf_with_styling soup) = .error msg →
      (process_pdf render soup request_id tProc).pdf_base64 = none ∧
      (process_pdf render soup request_id tProc).size_bytes = none) := by
  constructor
  · intro bytes hr hbound
    refine ⟨?_, ?_, b64_roundtrip bytes hbound, ?_⟩ <;> simp [process_pdf, hr]
  · intro msg hr
    constructor <;> simp [process_pdf, hr]

theorem claim_C3_witness :
    (process_pdf fakeRenderOk (fakeParse "<h1>Hi</h1>") "req-1" 3).success = true ∧
    b64decode (b64encode [80, 68, 70, 68, 65, 84, 65]) =
      some [80, 68, 70, 68, 65, 84, 65] ∧
    (process_pdf fakeRenderOk (fakeParse "<h1>Hi</h1>") "req-1" 3).size_bytes = some 7 := by
  have h := (claim_C3_base64_roundtrip fakeRenderOk (fakeParse "<h1>Hi</h1>") "req-1" 3).1
    [80, 68, 70, 68, 65, 84, 65] rfl (by decide)
  exact ⟨h.1, h.2.2.1, h.2.2.2⟩

/-- **C7 (counterexample).** The validation-failure response for an empty
JSON object carries *no* timing metadata: both `processing_time_ms` and
`api_response_time_ms` are absent from the 400 response. -/
theorem claim_C7_counterexample :
    (convert "req-1" (some []) fakeParse fakeRenderOk .completes 3 5).1.success = false ∧
    (convert "req-1" (some []) fakeParse fakeRenderOk
        .completes 3 5).1.processing_time_ms = none ∧
    (convert "req-1" (some []) fakeParse fakeRenderOk
        .completes 3 5).1.api_response_time_ms = none :=
  ⟨rfl, rfl, rfl⟩

/-- **C7 (amended).** Timing metadata on failures is uneven: validation
failures (400) carry no timing fields at all; an engine failure that
completes within the timeout carries both `processing_time_ms` and
`api_response_time_ms`; an exception escaping to the `except` block (e.g.
timeout) carries `api_response_time_ms` only. -/
theorem claim_C7_failure_timing (request_id : String) (body : JsonBody)
    (d : List (String × String)) (parse : String → NodeList)
    (render : NodeList → Except String (List Nat)) (fut : FutureBehavior)
    (msg excMsg : String) (tProc tApi : Nat) :
    (body = none ∨ body = some [] ∨
      (∃ d', body = some d' ∧ d' ≠ [] ∧ (d'.lookup "html").getD "" = "") →
      (convert request_id body parse render fut tProc tApi).1.processing_time_ms = none ∧
      (convert request_id body parse render fut tProc tApi).1.api_response_time_ms = none) ∧
    (d ≠ [] → (d.lookup "html").getD "" ≠ "" →
      render (generate_pdf_with_styling (parse ((d.lookup "html").getD ""))) = .error msg →
      (convert request_id (some d) parse render .completes tProc tApi).1.processing_time_ms =
        some tProc ∧
      (convert request_id (some d) parse render .completes tProc tApi).1.api_response_time_ms =
        some tApi) ∧
    (d ≠ [] → (d.lookup "html").getD "" ≠ "" →
      (convert request_id (some d) parse render (.raises excMsg)
          tProc tApi).1.api_response_time_ms = some tApi) := by
  refine ⟨?_, ?_, ?_⟩
  · intro h
    rcases h with rfl | rfl | ⟨d', rfl, hd, hh⟩
    · simp [convert]
    · simp [convert]
    · simp [convert, hd, hh]
  · intro hd hh hr
    constructor <;> simp [convert, hd, hh, process_pdf, hr]
  · intro hd hh
    simp [convert, hd, hh]

theorem claim_C7_witness :
    ((convert "req-1" (some []) fakeParse fakeRenderOk
        .completes 3 5).1.processing_time_ms = none ∧
      (convert "req-1" (some []) fakeParse fakeRenderOk
        .completes 3 5).1.api_response_time_ms = none) ∧
    ((convert "req-1" (some [("html", "<h1>x</h1>")]) fakeParse fakeRenderErr
        .completes 3 5).1.processing_time_ms = some 3 ∧
      (convert "req-1" (some [("html", "<h1>x</h1>")]) fakeParse fakeRenderErr
        .completes 3 5).1.api_response_time_ms = some 5) ∧
    (convert "req-1" (some [("html", "<h1>x</h1>")]) fakeParse fakeRenderErr
        (.raises "timed out") 3 5).1.api_response_time_ms = some 5 := by
  have h := claim_C7_failure_timing "req-1" (some []) [("html", "<h1>x</h1>")]
    fakeParse fakeRenderErr .completes "boom" "timed out" 3 5
  exact ⟨h.1 (Or.inr (Or.inl rfl)),
    h.2.1 (by decide) (by decide) rfl,
    h.2.2 (by decide) (by decide)⟩

/-- **C8 (counterexample).** A failed startup self-test is indeed non-fatal
(the service starts), but `/health` does *not* report a degraded status: its
payload is the constant `"healthy"` and is identical to the payload after a
successful self-test — the warm-up outcome is discarded, never surfaced. -/
theorem claim_C8_counterexample :
    warmupThenStart (.error "engine down") = true ∧
    (health (.error "engine down")).status = "healthy" ∧
    health (.error "engine down") = health (.ok ()) :=
  ⟨rfl, rfl, rfl⟩

/-- **C8 (amended).** A render-engine self-test failure at startup is
non-fatal: the service starts, `/health` and `/convert` still respond, and
`/convert` still attempts rendering on valid input (fail-open; the handler
takes no warm-up state at all).  However `/health` always reports status
`"healthy"` — the degraded state is never surfaced. -/
theorem claim_C8_fail_open (selfTest : Except String Unit) (request_id : String)
    (d : List (String × String)) (parse : String → NodeList)
    (render : NodeList → Except String (List Nat)) (tProc tApi : Nat)
    (hd : d ≠ []) (hh : (d.lookup "html").getD "" ≠ "") :
    warmupThenStart selfTest = true ∧
    (health selfTest).status = "healthy" ∧
    (convert request_id (some d) parse render .completes tProc tApi).2.2 = true := by
  refine ⟨?_, rfl, ?_⟩
  · cases selfTest <;> rfl
  · simp [convert, hd, hh]

theorem claim_C8_witness :
    warmupThenStart (.error "engine down") = true ∧
    (health (.error "engine down")).status = "healthy" ∧
    (convert "req-1" (some [("html", "<h1>x</h1>")]) fakeParse fakeRenderOk
        .completes 3 5).2.2 = true :=
  claim_C8_fail_open (.error "engine down") "req-1" [("html", "<h1>x</h1>")]
    fakeParse fakeRenderOk 3 5 (by decide) (by decide)

/-- **C9 (counterexample).** With all 4 workers busy and a million jobs
already queued, a further submission is still *queued* (the queue grows to
1000001) — `ThreadPoolExecutor`'s work queue is unbounded; there is no
capacity error and no "overloaded" outcome anywhere in the program. -/
theorem claim_C9_counterexample :
    (poolSubmit { active := 4, queueLen := 1000000 }).1 = SubmitOutcome.queued ∧
    (poolSubmit { active := 4, queueLen := 1000000 }).2.queueLen = 1000001 :=
  ⟨rfl, rfl⟩

/-- **C9 (amended).** When all worker slots are occupied, a new submission
never fails fast: it is enqueued on the pool's unbounded queue (the queue
length grows without bound).  Callers nevertheless do not hang indefinitely,
because `future.result(timeout=30)` bounds the wait: when the result does not
arrive in time the escaping exception yields a 500 "Server error" response. -/
theorem claim_C9_unbounded_queue (s : PoolState) (request_id excMsg : String)
    (d : List (String × String)) (parse : String → NodeList)
    (render : NodeList → Except String (List Nat)) (tProc tApi : Nat)
    (hfull : max_workers ≤ s.active) (hd : d ≠ []) (hh : (d.lookup "html").getD "" ≠ "") :
    poolSubmit s = (.queued, { active := s.active, queueLen := s.queueLen + 1 }) ∧
    (convert request_id (some d) parse render (.raises excMsg) tProc tApi).2.1 = 500 ∧
    (convert request_id (some d) parse render (.raises excMsg) tProc tApi).1.success =
      false := by
  refine ⟨?_, ?_, ?_⟩
  · have : ¬ s.active < max_workers := by omega
    simp [poolSubmit, this]
  · simp [convert, hd, hh]
  · simp [convert, hd, hh]

theorem claim_C9_witness :
    poolSubmit { active := 4, queueLen := 17 } =
      (SubmitOutcome.queued, { active := 4, queueLen := 18 }) ∧
    (convert "req-1" (some [("html", "<h1>x</h1>")]) fakeParse fakeRenderOk
        (.raises "timed out") 3 5).2.1 = 500 ∧
    (convert "req-1" (some [("html", "<h1>x</h1>")]) fakeParse fakeRenderOk
        (.raises "timed out") 3 5).1.success = false :=
  claim_C9_unbounded_queue { active := 4, queueLen := 17 } "req-1" "timed out"
    [("html", "<h1>x</h1>")] fakeParse fakeRenderOk 3 5
    (by decide) (by decide) (by decide)

/-- **C10.** `process_pdf` is total at its boundary: for every render
outcome it returns a result dictionary (never an exception) carrying the
request id and the measured processing time; when the engine raises, the
result has success=false and the exception message as its error; when the
engine succeeds, success=true. -/
theorem claim_C10_process_pdf_total (render : NodeList → Except String (List Nat))
    (soup : NodeList) (request_id : String) (tProc : Nat) :
    (process_pdf render soup request_id tProc).request_id = request_id ∧
    (process_pdf render soup request_id tProc).processing_time_ms = some tProc ∧
    (∀ msg, render (generate_pdf_with_styling soup) = .error msg →
      (process_pdf render soup request_id tProc).success = false ∧
      (process_pdf render soup request_id tProc).error = some msg) ∧
    (∀ bytes, render (generate_pdf_with_styling soup) = .ok bytes →
      (process_pdf render soup request_id tProc).success = true) := by
  refine ⟨?_, ?_, ?_, ?_⟩
  · cases hr : render (generate_pdf_with_styling soup) <;> simp [process_pdf, hr]
  · cases hr : render (generate_pdf_with_styling soup) <;> simp [process_pdf, hr]
  · intro msg hr
    constructor <;> simp [process_pdf, hr]
  · intro bytes hr
    simp [process_pdf, hr]

theorem claim_C10_witness :
    (process_pdf fakeRenderErr (fakeParse "<h1>Hi</h1>") "req-1" 3).request_id = "req-1" ∧
    (process_pdf fakeRenderErr (fakeParse "<h1>Hi</h1>") "req-1" 3).processing_time_ms =
      some 3 ∧
    (process_pdf fakeRenderErr (fakeParse "<h1>Hi</h1>") "req-1" 3).success = false ∧
    (process_pdf fakeRenderErr (fakeParse "<h1>Hi</h1>") "req-1" 3).error = some "boom" := by
  have h := claim_C10_process_pdf_total fakeRenderErr (fakeParse "<h1>Hi</h1>") "req-1" 3
  exact ⟨h.1, h.2.1, (h.2.2.1 "boom" rfl).1, (h.2.2.1 "boom" rfl).2⟩

end PDFAPI
